import Mathlib

/-!
Shallow embedding of the decorate-gpx waypoint subsampling and enrichment
pipeline (src/parse_gpx.py and src/readgpx.py).

Modelling conventions:
* `datetime` instants are modelled as `Int` seconds since the Unix epoch;
  `timedelta` values and the minimum spacing `min_time_diff` are `Int`
  seconds, so `datetime` subtraction becomes `Int` subtraction.
* latitude / longitude / elevation floats carry no arithmetic in the code
  (they are only stored and forwarded), so they are modelled as `Rat`.
* the network call of `requests.get` is an abstract fetch capability
  `FetchRequest → FetchResult α`; the decoded JSON payload is the abstract
  type `α`.  `get_wind_data` additionally reports the list of requests it
  issued, modelling the observable fetch effect.
* the module-level `features` accumulator is threaded as explicit state
  through `process_waypoints` / `process_point`.
-/

namespace DecorateGpx

/-- WayPoint dataclass of parse_gpx.py: position, epoch-seconds timestamp and
the three text annotations. -/
structure WayPoint where
  lat : Rat
  lon : Rat
  elevation : Rat
  time : Int
  name : String
  comment : String
  description : String
deriving DecidableEq

/-- One entry of the `pressure_levels` configuration list: a level key and a
nominal altitude in meters. -/
structure Level where
  key : String
  alt : Rat
deriving DecidableEq

/-- The `pressure_levels` module-level configuration of parse_gpx.py. -/
def pressure_levels : List Level :=
  [⟨"1000hPa", 110⟩, ⟨"975hPa", 320⟩, ⟨"950hPa", 500⟩, ⟨"925hPa", 800⟩,
   ⟨"900hPa", 1000⟩, ⟨"850hPa", 1500⟩, ⟨"700hPa", 3000⟩, ⟨"600hPa", 4200⟩,
   ⟨"500hPa", 5500⟩]

/-- The module-level `every = 120` (minutes) of parse_gpx.py. -/
def every : Int := 120

/-- The default `min_time_diff = timedelta(minutes=every)` in seconds. -/
def defaultMinTimeDiff : Int := 60 * every

/-- Python's `time.date()` for an epoch-seconds instant: the calendar day
number (floor division, matching `datetime.fromtimestamp` semantics). -/
def dateOf (t : Int) : Int := Int.fdiv t 86400

/-- The keyword parameters of the `requests.get` call in `get_wind_data`.
The start and end dates are calendar day numbers (`time.date().isoformat()`
is injective into day numbers, so the day number stands for the string). -/
structure FetchRequest where
  latitude : Rat
  longitude : Rat
  hourly : List String
  timeformat : String
  timezone : String
  start_date : Int
  end_date : Int
  models : String
deriving DecidableEq

/-- Result of the abstract fetch capability: a decoded payload on success
(`response.json()`), or an exception carrying a message. -/
inductive FetchResult (α : Type) where
  | ok (payload : α)
  | error (msg : String)
deriving DecidableEq

/-- Value returned by `get_wind_data`: either the raw decoded payload,
unchanged, or the tuple `(0.0, 0.0)` built in the `except` branch. -/
inductive WindData (α : Type) where
  | payload (p : α)
  | sentinel (speed direction : Rat)
deriving DecidableEq

/-- The `wind_speed_{level}` parameter names built from a level list. -/
def wind_speed_params (levels : List Level) : List String :=
  levels.map (fun level => "wind_speed_" ++ level.key)

/-- The `wind_direction_{level}` parameter names built from a level list. -/
def wind_direction_params (levels : List Level) : List String :=
  levels.map (fun level => "wind_direction_" ++ level.key)

/-- The single request `get_wind_data` issues: all levels' speed and
direction variables in one `hourly` list, start date = end date = the
calendar date of the query timestamp. -/
def mkRequest (levels : List Level) (lat lon : Rat) (time : Int) : FetchRequest :=
  { latitude := lat
    longitude := lon
    hourly := wind_speed_params levels ++ wind_direction_params levels
    timeformat := "iso8601"
    timezone := "UTC"
    start_date := dateOf time
    end_date := dateOf time
    models := "icon_d2" }

/-- get_wind_data of parse_gpx.py: build the parameter set, issue one fetch;
on success return the decoded payload unchanged, on any exception return the
pair `(0.0, 0.0)`.  The second component is the list of issued requests. -/
def get_wind_data {α : Type} (fetch : FetchRequest → FetchResult α)
    (levels : List Level) (lat lon : Rat) (time : Int) :
    WindData α × List FetchRequest :=
  let req := mkRequest levels lat lon time
  match fetch req with
  | .ok p => (.payload p, [req])
  | .error _ => (.sentinel 0 0, [req])

/-- The selection test of the sampling loop:
`last_processed_time is None or current_time - last_processed_time >= min_time_diff`. -/
def shouldProcess (D : Int) (last : Option Int) (t : Int) : Bool :=
  match last with
  | none => true
  | some l => decide (D ≤ t - l)

/-- The pure selection skeleton of `process_waypoints`: the subsequence of
waypoints on which the body (fetch + callback) runs, threading
`last_processed_time` exactly as the loop does. -/
def sampleLoop (D : Int) : Option Int → List WayPoint → List WayPoint
  | _, [] => []
  | last, wp :: rest =>
    if shouldProcess D last wp.time then wp :: sampleLoop D (some wp.time) rest
    else sampleLoop D last rest

/-- The waypoints selected by `process_waypoints` (initial
`last_processed_time = None`). -/
def sample (D : Int) (waypoints : List WayPoint) : List WayPoint :=
  sampleLoop D none waypoints

/-- Spec-side sampler, written from the specification's words: after a
selection, a subsequent waypoint is selected if and only if its timestamp
minus the timestamp of the most recently selected waypoint is at least `D`. -/
def sampleSpecGo (D : Int) (lastSelected : WayPoint) : List WayPoint → List WayPoint
  | [] => []
  | wp :: rest =>
    if D ≤ wp.time - lastSelected.time then wp :: sampleSpecGo D wp rest
    else sampleSpecGo D lastSelected rest

/-- Spec-side sampler: the first waypoint is always selected; thereafter
selection compares against the most recently selected waypoint. -/
def sampleSpec (D : Int) : List WayPoint → List WayPoint
  | [] => []
  | wp :: rest => wp :: sampleSpecGo D wp rest

lemma sampleLoop_some_eq_sampleSpecGo (D : Int) :
    ∀ (wps : List WayPoint) (w : WayPoint),
      sampleLoop D (some w.time) wps = sampleSpecGo D w wps := by
  intro wps
  induction wps with
  | nil => intro w; rfl
  | cons wp rest ih =>
    intro w
    by_cases h : D ≤ wp.time - w.time
    · simp [sampleLoop, sampleSpecGo, shouldProcess, h, ih]
    · simp [sampleLoop, sampleSpecGo, shouldProcess, h, ih]

lemma sample_eq_sampleSpec (D : Int) (wps : List WayPoint) :
    sample D wps = sampleSpec D wps := by
  cases wps with
  | nil => rfl
  | cons wp rest =>
    simp [sample, sampleLoop, sampleSpec, shouldProcess,
      sampleLoop_some_eq_sampleSpecGo]

lemma sample_head? (D : Int) (wps : List WayPoint) :
    (sample D wps).head? = wps.head? := by
  cases wps with
  | nil => rfl
  | cons wp rest => simp [sample, sampleLoop, shouldProcess]

lemma sampleLoop_some_head (D : Int) :
    ∀ (wps : List WayPoint) (l : Int) (w : WayPoint),
      (sampleLoop D (some l) wps).head? = some w → D ≤ w.time - l := by
  intro wps
  induction wps with
  | nil => intro l w h; simp [sampleLoop] at h
  | cons wp rest ih =>
    intro l w h
    by_cases hc : D ≤ wp.time - l
    · simp [sampleLoop, shouldProcess, hc] at h
      subst h; exact hc
    · simp [sampleLoop, shouldProcess, hc] at h
      exact ih l w h

lemma chain'_sampleLoop_some (D : Int) :
    ∀ (wps : List WayPoint) (l : Int),
      List.Chain' (fun a b => D ≤ b.time - a.time) (sampleLoop D (some l) wps) := by
  intro wps
  induction wps with
  | nil => intro l; simp [sampleLoop]
  | cons wp rest ih =>
    intro l
    by_cases hc : D ≤ wp.time - l
    · have hstep : sampleLoop D (some l) (wp :: rest)
          = wp :: sampleLoop D (some wp.time) rest := by
        simp [sampleLoop, shouldProcess, hc]
      rw [hstep, List.chain'_cons']
      exact ⟨fun b hb => sampleLoop_some_head D rest wp.time b hb, ih wp.time⟩
    · simpa [sampleLoop, shouldProcess, hc] using ih l

lemma chain'_sample (D : Int) (wps : List WayPoint) :
    List.Chain' (fun a b => D ≤ b.time - a.time) (sample D wps) := by
  cases wps with
  | nil => simp [sample, sampleLoop]
  | cons wp rest =>
    have hstep : sample D (wp :: rest)
        = wp :: sampleLoop D (some wp.time) rest := by
      simp [sample, sampleLoop, shouldProcess]
    rw [hstep, List.chain'_cons']
    exact ⟨fun b hb => sampleLoop_some_head D rest wp.time b hb,
      chain'_sampleLoop_some D rest wp.time⟩

/-- C1: the sampler selects the first waypoint, thereafter selects exactly
when the timestamp gap from the most recently selected waypoint is at least
`D` (the spec-side `sampleSpec` states this rule verbatim), and consequently
every two consecutive selected timestamps differ by at least `D`. -/
theorem c1_sampler_spacing (D : Int) (_hD : 0 ≤ D) (wps : List WayPoint)
    (_hsorted : List.Chain' (fun a b => a.time ≤ b.time) wps) :
    sample D wps = sampleSpec D wps
    ∧ (sample D wps).head? = wps.head?
    ∧ List.Chain' (fun a b => D ≤ b.time - a.time) (sample D wps) :=
  ⟨sample_eq_sampleSpec D wps, sample_head? D wps, chain'_sample D wps⟩

/-- Witness for C1 at a concrete spacing and track. -/
theorem c1_sampler_spacing_witness :
    sample 7200 [⟨45, 11, 100, 0, "", "", ""⟩, ⟨45, 11, 100, 600, "", "", ""⟩,
        ⟨46, 12, 200, 7800, "", "", ""⟩]
      = sampleSpec 7200 [⟨45, 11, 100, 0, "", "", ""⟩, ⟨45, 11, 100, 600, "", "", ""⟩,
        ⟨46, 12, 200, 7800, "", "", ""⟩]
    ∧ (sample 7200 [⟨45, 11, 100, 0, "", "", ""⟩, ⟨45, 11, 100, 600, "", "", ""⟩,
        ⟨46, 12, 200, 7800, "", "", ""⟩]).head?
      = ([⟨45, 11, 100, 0, "", "", ""⟩, ⟨45, 11, 100, 600, "", "", ""⟩,
        (⟨46, 12, 200, 7800, "", "", ""⟩ : WayPoint)]).head?
    ∧ List.Chain' (fun a b => 7200 ≤ b.time - a.time)
        (sample 7200 [⟨45, 11, 100, 0, "", "", ""⟩, ⟨45, 11, 100, 600, "", "", ""⟩,
          ⟨46, 12, 200, 7800, "", "", ""⟩]) :=
  c1_sampler_spacing 7200 (by decide)
    [⟨45, 11, 100, 0, "", "", ""⟩, ⟨45, 11, 100, 600, "", "", ""⟩,
      ⟨46, 12, 200, 7800, "", "", ""⟩]
    (by norm_num [List.chain'_cons])

lemma sampleLoop_of_chain' (D : Int) :
    ∀ (rest : List WayPoint) (w : WayPoint),
      List.Chain' (fun a b => D ≤ b.time - a.time) (w :: rest) →
      sampleLoop D (some w.time) rest = rest := by
  intro rest
  induction rest with
  | nil => intro w _; rfl
  | cons w' rest' ih =>
    intro w h
    rw [List.chain'_cons] at h
    have hstep : sampleLoop D (some w.time) (w' :: rest')
        = w' :: sampleLoop D (some w'.time) rest' := by
      simp [sampleLoop, shouldProcess, h.1]
    rw [hstep, ih w' h.2]

/-- C4: sampling is idempotent on its own output: re-running the sampler with
the same `D` on the selected subsequence selects every waypoint again. -/
theorem c4_sample_idempotent (D : Int) (wps : List WayPoint) :
    sample D (sample D wps) = sample D wps := by
  have hch := chain'_sample D wps
  cases hs : sample D wps with
  | nil => rfl
  | cons w rest =>
    rw [hs] at hch
    have hstep : sample D (w :: rest)
        = w :: sampleLoop D (some w.time) rest := by
      simp [sample, sampleLoop, shouldProcess]
    rw [hstep, sampleLoop_of_chain' D rest w hch]

/-- Arguments handed to the per-point callback by `process_waypoints`:
position, elevation, timestamp and the forecast value. -/
structure CallbackArgs (α : Type) where
  lat : Rat
  lon : Rat
  elevation : Rat
  time : Int
  forecast : WindData α
deriving DecidableEq

/-- One output record of `process_point`: a GeoJSON point geometry
`(lon, lat, alt)` and the properties `time` (the timestamp; `isoformat` is
injective, so the instant stands for the string) and `forecast`. -/
structure Feature (α : Type) where
  geometry : Rat × Rat × Rat
  time : Int
  forecast : WindData α
deriving DecidableEq

/-- The loop body of `process_waypoints`, threading `last_processed_time`,
the callback state (the module-level `features` list for `process_point`)
and the list of fetch requests issued so far. -/
def processLoop {α σ : Type} (fetch : FetchRequest → FetchResult α)
    (callback : CallbackArgs α → σ → σ) (levels : List Level) (D : Int) :
    Option Int → List WayPoint → σ → σ × List FetchRequest
  | _, [], st => (st, [])
  | last, wp :: rest, st =>
    if shouldProcess D last wp.time then
      let fr := get_wind_data fetch levels wp.lat wp.lon wp.time
      let st1 := callback ⟨wp.lat, wp.lon, wp.elevation, wp.time, fr.1⟩ st
      let res := processLoop fetch callback levels D (some wp.time) rest st1
      (res.1, fr.2 ++ res.2)
    else
      processLoop fetch callback levels D last rest st

/-- process_waypoints of parse_gpx.py: walk the waypoint list with
`last_processed_time = None` initially; for each selected waypoint fetch the
wind data and invoke the callback.  The result is the final callback state
and the list of issued fetch requests. -/
def process_waypoints {α σ : Type} (fetch : FetchRequest → FetchResult α)
    (callback : CallbackArgs α → σ → σ) (levels : List Level)
    (min_time_diff : Int) (waypoints : List WayPoint) (st : σ) :
    σ × List FetchRequest :=
  processLoop fetch callback levels min_time_diff none waypoints st

/-- process_point of parse_gpx.py: append one Feature, built from the
callback arguments, to the `features` accumulator. -/
def process_point {α : Type} (a : CallbackArgs α) (features : List (Feature α)) :
    List (Feature α) :=
  features ++ [⟨(a.lon, a.lat, a.elevation), a.time, a.forecast⟩]

/-- The callback arguments `process_waypoints` builds for a selected
waypoint. -/
def argsOf {α : Type} (fetch : FetchRequest → FetchResult α)
    (levels : List Level) (wp : WayPoint) : CallbackArgs α :=
  ⟨wp.lat, wp.lon, wp.elevation, wp.time,
    (get_wind_data fetch levels wp.lat wp.lon wp.time).1⟩

/-- The Feature `process_point` appends for a selected waypoint. -/
def featureOf {α : Type} (fetch : FetchRequest → FetchResult α)
    (levels : List Level) (wp : WayPoint) : Feature α :=
  ⟨(wp.lon, wp.lat, wp.elevation), wp.time,
    (get_wind_data fetch levels wp.lat wp.lon wp.time).1⟩

lemma get_wind_data_requests {α : Type} (fetch : FetchRequest → FetchResult α)
    (levels : List Level) (lat lon : Rat) (t : Int) :
    (get_wind_data fetch levels lat lon t).2 = [mkRequest levels lat lon t] := by
  cases h : fetch (mkRequest levels lat lon t) <;> simp [get_wind_data, h]

lemma processLoop_eq {α σ : Type} (fetch : FetchRequest → FetchResult α)
    (callback : CallbackArgs α → σ → σ) (levels : List Level) (D : Int) :
    ∀ (wps : List WayPoint) (last : Option Int) (st : σ),
      processLoop fetch callback levels D last wps st
        = (List.foldl (fun s wp => callback (argsOf fetch levels wp) s) st
            (sampleLoop D last wps),
           (sampleLoop D last wps).map
             (fun wp => mkRequest levels wp.lat wp.lon wp.time)) := by
  intro wps
  induction wps with
  | nil => intro last st; rfl
  | cons wp rest ih =>
    intro last st
    by_cases hc : shouldProcess D last wp.time
    · have hstep : processLoop fetch callback levels D last (wp :: rest) st
          = ((processLoop fetch callback levels D (some wp.time) rest
                (callback (argsOf fetch levels wp) st)).1,
             (get_wind_data fetch levels wp.lat wp.lon wp.time).2
               ++ (processLoop fetch callback levels D (some wp.time) rest
                     (callback (argsOf fetch levels wp) st)).2) := by
        simp [processLoop, hc, argsOf]
      have hsamp : sampleLoop D last (wp :: rest)
          = wp :: sampleLoop D (some wp.time) rest := by
        simp [sampleLoop, hc]
      rw [hstep, hsamp, ih (some wp.time)]
      simp [get_wind_data_requests]
    · have hstep : processLoop fetch callback levels D last (wp :: rest) st
          = processLoop fetch callback levels D last rest st := by
        simp [processLoop, hc]
      have hsamp : sampleLoop D last (wp :: rest) = sampleLoop D last rest := by
        simp [sampleLoop, hc]
      rw [hstep, hsamp, ih last]

lemma foldl_process_point {α : Type} (fetch : FetchRequest → FetchResult α)
    (levels : List Level) :
    ∀ (l : List WayPoint) (st : List (Feature α)),
      List.foldl (fun s wp => process_point (argsOf fetch levels wp) s) st l
        = st ++ l.map (featureOf fetch levels) := by
  intro l
  induction l with
  | nil => intro st; simp
  | cons wp l ih =>
    intro st
    rw [List.foldl_cons, ih]
    simp [process_point, argsOf, featureOf]

lemma process_waypoints_features {α : Type} (fetch : FetchRequest → FetchResult α)
    (levels : List Level) (D : Int) (wps : List WayPoint)
    (fs : List (Feature α)) :
    (process_waypoints fetch process_point levels D wps fs).1
      = fs ++ (sample D wps).map (featureOf fetch levels) := by
  unfold process_waypoints sample
  rw [processLoop_eq]
  exact foldl_process_point fetch levels (sampleLoop D none wps) fs

lemma process_waypoints_requests {α σ : Type} (fetch : FetchRequest → FetchResult α)
    (callback : CallbackArgs α → σ → σ) (levels : List Level) (D : Int)
    (wps : List WayPoint) (st : σ) :
    (process_waypoints fetch callback levels D wps st).2
      = (sample D wps).map (fun wp => mkRequest levels wp.lat wp.lon wp.time) := by
  unfold process_waypoints sample
  rw [processLoop_eq]

lemma sampleLoop_sublist (D : Int) :
    ∀ (wps : List WayPoint) (last : Option Int),
      List.Sublist (sampleLoop D last wps) wps := by
  intro wps
  induction wps with
  | nil => intro last; simp [sampleLoop]
  | cons wp rest ih =>
    intro last
    by_cases hc : shouldProcess D last wp.time
    · simp only [sampleLoop, hc, if_pos]
      exact List.Sublist.cons₂ wp (ih (some wp.time))
    · simp only [sampleLoop, hc, Bool.false_eq_true, if_neg, not_false_iff]
      exact List.Sublist.cons wp (ih last)

/-- C6: features are appended in selection order, which is input order: the
driver's output is the previous state followed by one feature per selected
waypoint, in order, and the selected waypoints form an order-preserving
subsequence of the input. -/
theorem c6_output_ordering {α : Type} (fetch : FetchRequest → FetchResult α)
    (levels : List Level) (D : Int) (wps : List WayPoint)
    (fs : List (Feature α)) :
    (process_waypoints fetch process_point levels D wps fs).1
      = fs ++ (sample D wps).map (featureOf fetch levels)
    ∧ List.Sublist (sample D wps) wps :=
  ⟨process_waypoints_features fetch levels D wps fs,
   sampleLoop_sublist D wps none⟩

/-- A gpxpy track point as consumed by readgpx.py: position, optional
elevation, optional timestamp. -/
structure RPoint where
  latitude : Rat
  longitude : Rat
  elevation : Option Rat
  time : Option Int
deriving DecidableEq

/-- The track loop of readgpx.py main: skip points lacking a timestamp;
process the first timestamped point, and each later point whose gap from the
last processed timestamp is at least `min_time_diff`.  The output lists the
`process_point` calls `(lat, lon, elevation or 0.0, time)` in order. -/
def readgpxLoop (D : Int) : Option Int → List RPoint → List (Rat × Rat × Rat × Int)
  | _, [] => []
  | last, p :: rest =>
    match p.time with
    | none => readgpxLoop D last rest
    | some t =>
      if shouldProcess D last t then
        (p.latitude, p.longitude, p.elevation.getD 0, t) :: readgpxLoop D (some t) rest
      else readgpxLoop D last rest

/-- The processing main of readgpx.py over an already-parsed point list
(initial `last_processed_time = None`). -/
def readgpx_main (D : Int) (points : List RPoint) : List (Rat × Rat × Rat × Int) :=
  readgpxLoop D none points

lemma readgpxLoop_no_time (D : Int) :
    ∀ (ps : List RPoint) (last : Option Int), (∀ p ∈ ps, p.time = none) →
      readgpxLoop D last ps = [] := by
  intro ps
  induction ps with
  | nil => intro last _; rfl
  | cons p rest ih =>
    intro last h
    have hp : p.time = none := h p (List.mem_cons_self p rest)
    simp only [readgpxLoop, hp]
    exact ih last (fun q hq => h q (List.mem_cons_of_mem p hq))

/-- C7: an input with zero timestamped points yields an empty selection and
an empty output with no fetch issued: the parse_gpx.py driver on the empty
waypoint list leaves the feature state unchanged and issues no request, its
sampler selects nothing, and the readgpx.py loop on points all lacking a
timestamp processes nothing. -/
theorem c7_empty_input {α σ : Type} (fetch : FetchRequest → FetchResult α)
    (callback : CallbackArgs α → σ → σ) (levels : List Level) (D : Int) (st : σ) :
    process_waypoints fetch callback levels D [] st = (st, [])
    ∧ sample D [] = []
    ∧ ∀ ps : List RPoint, (∀ p ∈ ps, p.time = none) → readgpx_main D ps = [] :=
  ⟨rfl, rfl, fun ps h => readgpxLoop_no_time D ps none h⟩

/-- Witness for C7: a concrete empty run and a concrete track whose only
point lacks a timestamp. -/
theorem c7_empty_input_witness :
    process_waypoints (fun _ => FetchResult.error "down") process_point
        pressure_levels defaultMinTimeDiff []
        ([] : List (Feature Unit)) = ([], [])
    ∧ sample defaultMinTimeDiff [] = []
    ∧ readgpx_main 900 [⟨45, 11, some 100, none⟩] = [] := by
  refine ⟨(c7_empty_input (fun _ => FetchResult.error "down") process_point
    pressure_levels defaultMinTimeDiff ([] : List (Feature Unit))).1,
    (c7_empty_input (fun _ => FetchResult.error "down") process_point
      pressure_levels defaultMinTimeDiff ([] : List (Feature Unit))).2.1,
    (c7_empty_input (fun _ => FetchResult.error "down") process_point
      pressure_levels 900 ([] : List (Feature Unit))).2.2
      [⟨45, 11, some 100, none⟩] ?_⟩
  intro p hp
  simp only [List.mem_singleton] at hp
  rw [hp]

/-- C9: process_point appends exactly one feature to the `features`
accumulator and leaves every previously appended entry unchanged; since the
accumulator is module-level state threaded between runs, the features of an
earlier run persist as an unchanged initial segment of a later run's
accumulator. -/
theorem c9_accumulator_append {α : Type} (a : CallbackArgs α)
    (fs : List (Feature α)) :
    (process_point a fs).length = fs.length + 1
    ∧ (process_point a fs).take fs.length = fs
    ∧ ∀ (fetch : FetchRequest → FetchResult α) (levels : List Level) (D : Int)
        (wps1 wps2 : List WayPoint),
        ((process_waypoints fetch process_point levels D wps2
            (process_waypoints fetch process_point levels D wps1 []).1).1).take
          ((process_waypoints fetch process_point levels D wps1 []).1).length
          = (process_waypoints fetch process_point levels D wps1 []).1 := by
  refine ⟨by simp [process_point], by simp [process_point], ?_⟩
  intro fetch levels D wps1 wps2
  rw [process_waypoints_features fetch levels D wps2]
  exact List.take_left _ _

/-- C8: get_wind_data has two result shapes: on fetch success the decoded
payload is returned unchanged (no hour extraction, no per-level shaping),
and on any exception the single pair `(0.0, 0.0)` is returned no matter
which pressure levels are configured; in both cases exactly the one request
was issued and nothing else distinguishes the cases to the caller. -/
theorem c8_result_shapes {α : Type} (levels : List Level)
    (fetch : FetchRequest → FetchResult α) (lat lon : Rat) (t : Int) :
    (∀ p, fetch (mkRequest levels lat lon t) = .ok p →
      get_wind_data fetch levels lat lon t
        = (.payload p, [mkRequest levels lat lon t]))
    ∧ (∀ msg, fetch (mkRequest levels lat lon t) = .error msg →
      get_wind_data fetch levels lat lon t
        = (.sentinel 0 0, [mkRequest levels lat lon t])) := by
  constructor
  · intro p hp; simp [get_wind_data, hp]
  · intro msg hm; simp [get_wind_data, hm]

/-- Witness for C8: a fetch that succeeds and a fetch that raises, at a
concrete position and time. -/
theorem c8_result_shapes_witness :
    get_wind_data (fun _ => FetchResult.ok ()) pressure_levels 45 11 3600
      = (.payload (), [mkRequest pressure_levels 45 11 3600])
    ∧ get_wind_data (fun _ => (FetchResult.error "timeout" : FetchResult Unit))
        pressure_levels (45 : Rat) 11 3600
      = (.sentinel 0 0, [mkRequest pressure_levels 45 11 3600]) :=
  ⟨(c8_result_shapes pressure_levels (fun _ => FetchResult.ok ()) 45 11 3600).1
      () rfl,
   (c8_result_shapes pressure_levels
      (fun _ => (FetchResult.error "timeout" : FetchResult Unit))
      45 11 3600).2 "timeout" rfl⟩

/-- C5: per resolved point exactly one fetch is issued; it is scoped to the
calendar date of the query timestamp (start date = end date = that date) and
its `hourly` list contains the wind-speed and wind-direction variable names
of every configured level; the driver's request log is exactly one such
request per selected waypoint. -/
theorem c5_single_fetch {α σ : Type} (fetch : FetchRequest → FetchResult α)
    (callback : CallbackArgs α → σ → σ) (levels : List Level)
    (lat lon : Rat) (t : Int) (D : Int) (wps : List WayPoint) (st : σ) :
    (get_wind_data fetch levels lat lon t).2 = [mkRequest levels lat lon t]
    ∧ (mkRequest levels lat lon t).start_date = dateOf t
    ∧ (mkRequest levels lat lon t).end_date = dateOf t
    ∧ (∀ level ∈ levels,
        ("wind_speed_" ++ level.key) ∈ (mkRequest levels lat lon t).hourly
        ∧ ("wind_direction_" ++ level.key) ∈ (mkRequest levels lat lon t).hourly)
    ∧ (process_waypoints fetch callback levels D wps st).2
        = (sample D wps).map (fun wp => mkRequest levels wp.lat wp.lon wp.time) := by
  refine ⟨get_wind_data_requests fetch levels lat lon t, rfl, rfl, ?_,
    process_waypoints_requests fetch callback levels D wps st⟩
  intro level hlevel
  constructor
  · exact List.mem_append_left _
      (List.mem_map_of_mem (fun l => "wind_speed_" ++ l.key) hlevel)
  · exact List.mem_append_right _
      (List.mem_map_of_mem (fun l => "wind_direction_" ++ l.key) hlevel)

/-- Witness for C5: the request of a concrete point carries the variables of
the concrete configured level list. -/
theorem c5_single_fetch_witness :
    (get_wind_data (fun _ => FetchResult.ok ()) pressure_levels 45 11 86400).2
      = [mkRequest pressure_levels 45 11 86400]
    ∧ (mkRequest pressure_levels (45 : Rat) (11 : Rat) 86400).start_date = dateOf 86400
    ∧ ("wind_speed_" ++ "850hPa") ∈ (mkRequest pressure_levels (45 : Rat) 11 86400).hourly
    ∧ ("wind_direction_" ++ "850hPa") ∈ (mkRequest pressure_levels (45 : Rat) 11 86400).hourly := by
  have h := c5_single_fetch (fun _ => FetchResult.ok ()) process_point
    pressure_levels 45 11 86400 defaultMinTimeDiff []
    ([] : List (Feature Unit))
  have hmem := h.2.2.2.1 ⟨"850hPa", 1500⟩ (by decide)
  exact ⟨h.1, h.2.1, hmem.1, hmem.2⟩

/-- A decoded forecast payload shape for exercising the resolver: the hourly
time axis of the returned series, as whole-hour instants. -/
structure MeteoPayload where
  hourly_time : List Int
deriving DecidableEq

/-- The query timestamp truncated to the top of the hour, as the claim
words it (the code never computes this). -/
def truncatedQueryHour (t : Int) : Int := 3600 * Int.fdiv t 3600

/-- Counterexample to C2 as stated: a fetch that succeeds with a series
lacking the truncated query hour (query at 10:30, axis 00:00–02:00) is
returned as the raw payload, unchanged — not as the sentinel `(0.0, 0.0)`
per level.  Only a raised exception produces the sentinel. -/
theorem c2_counterexample :
    (get_wind_data (fun _ => FetchResult.ok (⟨[0, 3600, 7200]⟩ : MeteoPayload))
        pressure_levels 45 11 37800).1
      = WindData.payload (⟨[0, 3600, 7200]⟩ : MeteoPayload)
    ∧ truncatedQueryHour 37800 ∉ (⟨[0, 3600, 7200]⟩ : MeteoPayload).hourly_time
    ∧ WindData.payload (⟨[0, 3600, 7200]⟩ : MeteoPayload)
        ≠ (WindData.sentinel 0 0 : WindData MeteoPayload) := by
  refine ⟨rfl, by decide, ?_⟩
  intro h
  exact WindData.noConfusion h

/-- C2 amended: only a fetch failure (an exception) produces the sentinel,
and it is the single pair `(0.0, 0.0)`, not one pair per level; a successful
payload is passed through unchanged even when it lacks the query hour; and
the pipeline keeps processing when every fetch fails, still emitting one
(sentinel-carrying) feature per selected waypoint. -/
theorem c2_sentinel_on_failure {α : Type} (levels : List Level)
    (fetch : FetchRequest → FetchResult α) (lat lon : Rat) (t : Int) :
    (∀ msg, fetch (mkRequest levels lat lon t) = .error msg →
      (get_wind_data fetch levels lat lon t).1 = .sentinel 0 0)
    ∧ (∀ p, fetch (mkRequest levels lat lon t) = .ok p →
      (get_wind_data fetch levels lat lon t).1 = .payload p)
    ∧ ∀ (D : Int) (wps : List WayPoint) (msg : String) (fs : List (Feature α)),
        (process_waypoints (fun _ => FetchResult.error msg) process_point
            levels D wps fs).1
          = fs ++ (sample D wps).map
              (fun wp => ⟨(wp.lon, wp.lat, wp.elevation), wp.time, .sentinel 0 0⟩) := by
  refine ⟨fun msg hm => by simp [get_wind_data, hm],
    fun p hp => by simp [get_wind_data, hp], ?_⟩
  intro D wps msg fs
  rw [process_waypoints_features]
  congr 1

/-- Witness for C2 amended: a concrete failing fetch yields the sentinel pair
and a two-point run still emits both features. -/
theorem c2_sentinel_on_failure_witness :
    (get_wind_data (fun _ => (FetchResult.error "503" : FetchResult MeteoPayload))
        pressure_levels 45 11 37800).1 = .sentinel 0 0
    ∧ (get_wind_data (fun _ => FetchResult.ok (⟨[0]⟩ : MeteoPayload))
        pressure_levels 45 11 37800).1 = .payload ⟨[0]⟩
    ∧ (process_waypoints
        (fun _ => (FetchResult.error "503" : FetchResult MeteoPayload))
        process_point pressure_levels 7200
        [⟨45, 11, 100, 0, "", "", ""⟩, ⟨46, 12, 200, 7800, "", "", ""⟩] []).1
      = [⟨(11, 45, 100), 0, .sentinel 0 0⟩, ⟨(12, 46, 200), 7800, .sentinel 0 0⟩] := by
  refine ⟨(c2_sentinel_on_failure pressure_levels
      (fun _ => (FetchResult.error "503" : FetchResult MeteoPayload))
      45 11 37800).1 "503" rfl,
    (c2_sentinel_on_failure pressure_levels
      (fun _ => FetchResult.ok (⟨[0]⟩ : MeteoPayload)) 45 11 37800).2.1
      ⟨[0]⟩ rfl, ?_⟩
  rw [(c2_sentinel_on_failure pressure_levels
    (fun _ => (FetchResult.error "503" : FetchResult MeteoPayload))
    45 11 37800).2.2 7200
    [⟨45, 11, 100, 0, "", "", ""⟩, ⟨46, 12, 200, 7800, "", "", ""⟩] "503" []]
  decide

/-- A raw XML attribute or element text to be run through Python's
`float(...)`: it either denotes a number or makes `float` raise ValueError. -/
inductive Tok where
  | num (q : Rat)
  | bad (s : String)
deriving DecidableEq

/-- Python `float(...)` on a token: the number, or a raised ValueError. -/
def floatOf : Tok → Option Rat
  | .num q => some q
  | .bad _ => none

/-- The `float(wpt.get("lat", 0))` idiom: a missing attribute defaults to
`0` (and `float(0)` succeeds); a present attribute is parsed. -/
def floatOfAttr : Option Tok → Option Rat
  | none => some 0
  | some t => floatOf t

/-- The `ele` handling: `float(ele_elem.text) if ele_elem is not None else 0.0`. -/
def eleOf : Option Tok → Option Rat
  | none => some 0
  | some t => floatOf t

/-- A raw `gpx:wpt` element as seen by parse_gpx_file: the two coordinate
attributes (absent when the attribute is missing) and the texts of the
optional child elements. -/
structure RawWpt where
  lat : Option Tok
  lon : Option Tok
  ele : Option Tok
  time : Option String
  name : Option String
  cmt : Option String
  desc : Option String
deriving DecidableEq

/-- The result of `datetime.strptime`: a calendar timestamp. -/
structure DateTime where
  year : Nat
  month : Nat
  day : Nat
  hour : Nat
  minute : Nat
  second : Nat
deriving DecidableEq

/-- The leading run of decimal digits of a character list, and the rest. -/
def takeDigits : List Char → List Char × List Char
  | [] => ([], [])
  | c :: cs =>
    if c.isDigit then
      let r := takeDigits cs
      (c :: r.1, r.2)
    else ([], c :: cs)

/-- The numeric value of a digit run. -/
def natOfDigits (ds : List Char) : Nat :=
  ds.foldl (fun n c => 10 * n + (c.toNat - 48)) 0

/-- Consume one expected literal character. -/
def expectChar (c : Char) : List Char → Option (List Char)
  | [] => none
  | x :: xs => if x = c then some xs else none

/-- One numeric strptime directive followed by a literal: consume the digit
run, require its length in `[minLen, maxLen]` and its value in `[lo, hi]`,
then consume the literal character. -/
def parseField (minLen maxLen lo hi : Nat) (lit : Char) (cs : List Char) :
    Option (Nat × List Char) := do
  let r := takeDigits cs
  if r.1.length < minLen ∨ maxLen < r.1.length then none
  else
    let v := natOfDigits r.1
    if v < lo ∨ hi < v then none
    else
      let rest ← expectChar lit r.2
      some (v, rest)

/-- Gregorian leap year test, as `datetime` validates dates. -/
def isLeap (y : Nat) : Bool := (y % 4 == 0 && y % 100 != 0) || y % 400 == 0

/-- Days in a month, as `datetime` validates dates. -/
def daysInMonth (y m : Nat) : Nat :=
  if m = 2 then (if isLeap y then 29 else 28)
  else if m = 4 ∨ m = 6 ∨ m = 9 ∨ m = 11 then 30 else 31

/-- Model of `datetime.strptime(s, "%Y-%m-%dT%H:%M:%SZ")`: four year digits,
one or two digits for month, day, hour, minute and second with the literal
separators, a final `Z`, and no unconverted data remaining; the resulting
calendar date must be valid or the constructor raises.  `none` models a
raised ValueError. -/
def parseTimeGpx (s : String) : Option DateTime := do
  let (y, cs) ← parseField 4 4 1 9999 '-' s.data
  let (mo, cs) ← parseField 1 2 1 12 '-' cs
  let (d, cs) ← parseField 1 2 1 31 'T' cs
  let (h, cs) ← parseField 1 2 0 23 ':' cs
  let (mi, cs) ← parseField 1 2 0 59 ':' cs
  let (sec, cs) ← parseField 1 2 0 59 'Z' cs
  if cs = [] ∧ d ≤ daysInMonth y mo then
    some ⟨y, mo, d, h, mi, sec⟩
  else none

/-- Days of a Gregorian date counted from 0000-03-01 (March-based shift);
defined for the years strptime accepts (≥ 1). -/
def civilDays (y m d : Nat) : Nat :=
  let y2 := if 2 < m then y else y - 1
  let m2 := if 2 < m then m - 3 else m + 9
  365 * y2 + y2 / 4 - y2 / 100 + y2 / 400 + (153 * m2 + 2) / 5 + (d - 1)

/-- The epoch-seconds instant of a parsed timestamp (UTC). -/
def epochOf (t : DateTime) : Int :=
  86400 * ((civilDays t.year t.month t.day : Int) - 719468)
    + 3600 * (t.hour : Int) + 60 * (t.minute : Int) + (t.second : Int)

/-- Fate of one raw waypoint in the parse loop of parse_gpx_file. -/
inductive Outcome where
  | kept (w : WayPoint)
  | skipSilent
  | skipWarn
deriving DecidableEq

/-- The body of the `for wpt in ...` loop of parse_gpx_file, in source
order: parse `lat`, `lon` (missing attributes default to 0), then `ele`
(missing element defaults to 0.0), then skip silently on a missing or empty
`time` element, parse the timestamp (a ValueError is caught: skip with a
warning), and keep the waypoint with defaulted text annotations. -/
def parseWpt (r : RawWpt) : Outcome :=
  match floatOfAttr r.lat with
  | none => .skipWarn
  | some lat =>
    match floatOfAttr r.lon with
    | none => .skipWarn
    | some lon =>
      match eleOf r.ele with
      | none => .skipWarn
      | some ele =>
        match r.time with
        | none => .skipSilent
        | some ts =>
          if ts = "" then .skipSilent
          else
            match parseTimeGpx ts with
            | none => .skipWarn
            | some t =>
              .kept ⟨lat, lon, ele, epochOf t,
                r.name.getD "", r.cmt.getD "", r.desc.getD ""⟩

/-- parse_gpx_file of parse_gpx.py over the raw waypoint elements of the
document: the kept waypoints, in order. -/
def parse_gpx_file (raws : List RawWpt) : List WayPoint :=
  raws.filterMap (fun r =>
    match parseWpt r with
    | .kept w => some w
    | _ => none)

/-- Counterexample to C3 as stated: a waypoint whose required `lat`
attribute is missing is not skipped — `float(wpt.get("lat", 0))` defaults
the coordinate to `0.0` and the point is kept in the output. -/
theorem c3_counterexample :
    parse_gpx_file
        [⟨none, some (.num 11), none, some "2025-04-05T10:30:00Z", none, none, none⟩]
      = [⟨0, 11, 0, epochOf ⟨2025, 4, 5, 10, 30, 0⟩, "", "", ""⟩]
    ∧ (⟨none, some (.num 11), none, some "2025-04-05T10:30:00Z",
        none, none, none⟩ : RawWpt).lat = none := by
  constructor
  · decide
  · rfl

lemma parse_gpx_file_append (l1 l2 : List RawWpt) :
    parse_gpx_file (l1 ++ l2) = parse_gpx_file l1 ++ parse_gpx_file l2 := by
  simp [parse_gpx_file]

lemma parse_gpx_file_skip (r : RawWpt)
    (h : parseWpt r = .skipWarn ∨ parseWpt r = .skipSilent) (l : List RawWpt) :
    parse_gpx_file (r :: l) = parse_gpx_file l := by
  rcases h with h | h <;> simp [parse_gpx_file, h]

/-- C3 amended: a point with an unparsable coordinate value or an
unparsable timestamp raises ValueError, which is caught: exactly that point
is dropped with a warning and parsing continues with the remaining points;
a missing coordinate attribute, however, is not malformed to the code — it
defaults to `0.0` and the point is kept. -/
theorem c3_skip_malformed_point (pre post : List RawWpt) (r : RawWpt) :
    (parseWpt r = .skipWarn ∨ parseWpt r = .skipSilent →
      parse_gpx_file (pre ++ r :: post) = parse_gpx_file pre ++ parse_gpx_file post)
    ∧ (∀ s, r.lat = some (.bad s) → parseWpt r = .skipWarn)
    ∧ (∀ la lo el ts, floatOfAttr r.lat = some la → floatOfAttr r.lon = some lo →
        eleOf r.ele = some el → r.time = some ts → ts ≠ "" →
        parseTimeGpx ts = none → parseWpt r = .skipWarn)
    ∧ (∀ lo el ts t, r.lat = none → floatOfAttr r.lon = some lo →
        eleOf r.ele = some el → r.time = some ts → ts ≠ "" →
        parseTimeGpx ts = some t →
        parseWpt r = .kept ⟨0, lo, el, epochOf t,
          r.name.getD "", r.cmt.getD "", r.desc.getD ""⟩) := by
  refine ⟨?_, ?_, ?_, ?_⟩
  · intro h
    rw [parse_gpx_file_append, parse_gpx_file_skip r h post]
  · intro s hs
    simp [parseWpt, hs, floatOfAttr, floatOf]
  · intro la lo el ts hla hlo hel hts hne hparse
    simp [parseWpt, hla, hlo, hel, hts, hne, hparse]
  · intro lo el ts t hla hlo hel hts hne hparse
    have hla0 : floatOfAttr r.lat = some 0 := by rw [hla]; rfl
    simp [parseWpt, hla0, hlo, hel, hts, hne, hparse]

/-- Witness for C3 amended at a concrete track: a point with an unparsable
elevation between two good points is dropped, and only it. -/
theorem c3_skip_malformed_point_witness :
    parse_gpx_file
        [⟨some (.num 45), some (.num 11), none, some "2025-04-05T10:00:00Z", none, none, none⟩,
         ⟨some (.num 45), some (.num 11), some (.bad "x"), some "2025-04-05T11:00:00Z", none, none, none⟩,
         ⟨some (.num 46), some (.num 12), none, some "2025-04-05T12:00:00Z", none, none, none⟩]
      = parse_gpx_file
          [⟨some (.num 45), some (.num 11), none, some "2025-04-05T10:00:00Z", none, none, none⟩]
        ++ parse_gpx_file
          [⟨some (.num 46), some (.num 12), none, some "2025-04-05T12:00:00Z", none, none, none⟩]
    ∧ parseWpt ⟨some (.bad "abc"), some (.num 11), none,
        some "2025-04-05T10:00:00Z", none, none, none⟩ = .skipWarn
    ∧ parseWpt ⟨some (.num 45), some (.num 11), none,
        some "2025-04-05T10:30:00+02:00", none, none, none⟩ = .skipWarn := by
  refine ⟨?_, ?_, ?_⟩
  · exact (c3_skip_malformed_point
      [⟨some (.num 45), some (.num 11), none, some "2025-04-05T10:00:00Z", none, none, none⟩]
      [⟨some (.num 46), some (.num 12), none, some "2025-04-05T12:00:00Z", none, none, none⟩]
      ⟨some (.num 45), some (.num 11), some (.bad "x"),
        some "2025-04-05T11:00:00Z", none, none, none⟩).1 (Or.inl (by decide))
  · exact (c3_skip_malformed_point [] []
      ⟨some (.bad "abc"), some (.num 11), none,
        some "2025-04-05T10:00:00Z", none, none, none⟩).2.1 "abc" rfl
  · exact (c3_skip_malformed_point [] []
      ⟨some (.num 45), some (.num 11), none,
        some "2025-04-05T10:30:00+02:00", none, none, none⟩).2.2.1
      45 11 0 "2025-04-05T10:30:00+02:00" rfl rfl rfl rfl (by decide) (by decide)

/-- C10: with parseable coordinates, a waypoint's fate is decided by its
time element exactly as the code dispatches: a missing or empty element is
skipped silently, a text `strptime` rejects (ValueError) is skipped with a
warning, and a text in the exact `%Y-%m-%dT%H:%M:%SZ` shape is accepted;
fractional seconds or a numeric UTC offset are rejected by that format. -/
theorem c10_timestamp_format (r : RawWpt) :
    (∀ la lo el, floatOfAttr r.lat = some la → floatOfAttr r.lon = some lo →
      eleOf r.ele = some el →
      (r.time = none → parseWpt r = .skipSilent)
      ∧ (r.time = some "" → parseWpt r = .skipSilent)
      ∧ (∀ ts, r.time = some ts → ts ≠ "" → parseTimeGpx ts = none →
          parseWpt r = .skipWarn)
      ∧ (∀ ts t, r.time = some ts → parseTimeGpx ts = some t →
          parseWpt r = .kept ⟨la, lo, el, epochOf t,
            r.name.getD "", r.cmt.getD "", r.desc.getD ""⟩))
    ∧ parseTimeGpx "2025-04-05T10:30:00Z" = some ⟨2025, 4, 5, 10, 30, 0⟩
    ∧ parseTimeGpx "2025-04-05T10:30:00.500Z" = none
    ∧ parseTimeGpx "2025-04-05T10:30:00+02:00" = none := by
  refine ⟨?_, by decide, by decide, by decide⟩
  intro la lo el hla hlo hel
  refine ⟨?_, ?_, ?_, ?_⟩
  · intro h; simp [parseWpt, hla, hlo, hel, h]
  · intro h; simp [parseWpt, hla, hlo, hel, h]
  · intro ts hts hne hparse
    simp [parseWpt, hla, hlo, hel, hts, hne, hparse]
  · intro ts t hts hparse
    have hne : ts ≠ "" := by
      intro h
      rw [h] at hparse
      have h0 : parseTimeGpx "" = none := by decide
      rw [h0] at hparse
      exact Option.noConfusion hparse
    simp [parseWpt, hla, hlo, hel, hts, hne, hparse]

/-- Witness for C10: a concrete waypoint with a well-formed timestamp is
kept, one with an offset-bearing timestamp is skipped with a warning, one
with an empty time element is skipped silently. -/
theorem c10_timestamp_format_witness :
    parseWpt ⟨some (.num 45), some (.num 11), some (.num 500),
        some "2025-04-05T10:30:00Z", none, none, none⟩
      = .kept ⟨45, 11, 500, epochOf ⟨2025, 4, 5, 10, 30, 0⟩, "", "", ""⟩
    ∧ parseWpt ⟨some (.num 45), some (.num 11), some (.num 500),
        some "", none, none, none⟩ = .skipSilent
    ∧ parseTimeGpx "2025-04-05T10:30:00.500Z" = none := by
  refine ⟨?_, ?_, ?_⟩
  · exact ((c10_timestamp_format ⟨some (.num 45), some (.num 11), some (.num 500),
      some "2025-04-05T10:30:00Z", none, none, none⟩).1 45 11 500 rfl rfl rfl).2.2.2
      "2025-04-05T10:30:00Z" ⟨2025, 4, 5, 10, 30, 0⟩ rfl (by decide)
  · exact ((c10_timestamp_format ⟨some (.num 45), some (.num 11), some (.num 500),
      some "", none, none, none⟩).1 45 11 500 rfl rfl rfl).2.1 rfl
  · exact (c10_timestamp_format ⟨none, none, none, none, none, none, none⟩).2.2.1

end DecorateGpx
